import Mathlib

/-!
Verification of the RadTach activity-timer core (src/src/RadTach-Latest.tsx).

The development shallowly embeds the program's pure calculation functions
(`calculateParTime`, `calculateRVU`), its session state machine (the React
state variables together with the click handlers and the 1 Hz interval
timers, modelled as a reducer over an explicit `AppState`), and the CSV
settings import/export pair.  JavaScript numbers are modelled as `Int`
(par times, counters) and `Rat` (RVU values); JavaScript objects holding
either a number or a per-modality table are modelled by the inductive
`JSVal`.
-/

namespace RadTach

/-- A JavaScript value stored in the RVU configuration: a number, an object
mapping modality names to further values, or anything else (non-numeric). -/
inductive JSVal where
  | num (q : ℚ)
  | obj (f : String → Option JSVal)
  | other

/-- `calculateParTime` from RadTach-Latest.tsx (lines 157-177): base par time
of the selected modality, plus the par time of every selected complication
except the Bilateral flag (missing entries contribute 0, via the JS
`parTimes[comp] || 0` coercion), with the running total doubled at the end
when Bilateral is selected. -/
def calculateParTime (parTimes : String → Option Int)
    (selectedModality : Option String)
    (selectedComplications : List String) : Int :=
  match selectedModality with
  | none => 0
  | some m =>
      let total := selectedComplications.foldl
        (fun acc comp =>
          if comp = "Bilateral" then acc else acc + (parTimes comp).getD 0)
        ((parTimes m).getD 0)
      if selectedComplications.contains "Bilateral" then total * 2 else total

/-- `calculateRVU` from RadTach-Latest.tsx (lines 179-203): base RVU of the
selected modality when its entry is a plain number (else 0); each selected
complication adds its per-modality entry when its configured value is an
object containing a number for the current modality, adds the value itself
when it is a plain number, and adds nothing otherwise. -/
def calculateRVU (rvuValues : String → Option JSVal)
    (selectedModality : Option String)
    (selectedComplications : List String) : ℚ :=
  match selectedModality with
  | none => 0
  | some m =>
      let base : ℚ :=
        match rvuValues m with
        | some (JSVal.num q) => q
        | _ => 0
      selectedComplications.foldl
        (fun total comp =>
          match rvuValues comp with
          | some (JSVal.num q) => total + q
          | some (JSVal.obj f) =>
              match f m with
              | some (JSVal.num q) => total + q
              | _ => total
          | _ => total)
        base

/-- An RVU-configuration entry as a concrete (ordered) object: a plain
number or a per-modality table, mirroring the TypeScript
`number | { [modality: string]: number }`. -/
inductive RVUEntry where
  | num (q : ℚ)
  | obj (entries : List (String × ℚ))
deriving DecidableEq

/-- View an ordered RVU entry as a `JSVal`. -/
def RVUEntry.toJSVal : RVUEntry → JSVal
  | RVUEntry.num q => JSVal.num q
  | RVUEntry.obj entries => JSVal.obj (fun md => (entries.lookup md).map JSVal.num)

/-- The default par-time configuration (`defaultParTimes` in the source,
lines 31-50), in source key order. -/
def defaultParTimesList : List (String × Int) :=
  [("XR", 90), ("FL", 120), ("CT", 240), ("US", 120), ("MR", 240),
   ("NM", 240), ("MA", 240), ("PET-CT", 600), ("Cancer Follow", 240),
   ("+1 Section", 120), ("+2 Section", 240), ("Multiple Priors", 120),
   ("Age >70", 120), ("Complex Hx", 120), ("Prior Surg Hx", 120),
   ("CTA", 180), ("Bilateral", 0), ("Vascular", 120)]

/-- The default RVU configuration (`defaultRVUValues` in the source,
lines 52-64), in source key order. -/
def defaultRVUValuesList : List (String × RVUEntry) :=
  [("XR", RVUEntry.num 0.2), ("FL", RVUEntry.num 0.4), ("CT", RVUEntry.num 1.0),
   ("US", RVUEntry.num 0.5), ("MR", RVUEntry.num 1.3), ("NM", RVUEntry.num 0.6),
   ("MA", RVUEntry.num 1.3), ("PET-CT", RVUEntry.num 2.4),
   ("+1 Section", RVUEntry.obj [("CT", 0.5), ("US", 0.5)]),
   ("+2 Section", RVUEntry.obj [("CT", 1.0)]),
   ("CTA", RVUEntry.obj [("CT", 0.4)])]

/-- The default par times as a key lookup. -/
def defaultParTimes : String → Option Int := fun k => defaultParTimesList.lookup k

/-- The default RVU values as a key lookup. -/
def defaultRVUValues : String → Option JSVal := fun k =>
  (defaultRVUValuesList.lookup k).map RVUEntry.toJSVal

/-- Specification-side restatement of `targetDuration` (§4.1 of the spec):
base par time plus the par times of all modifiers other than the
duplicate-side flag, multiplied by 2 exactly when the flag is present. -/
def targetDurationSpec (parTimes : String → Option Int)
    (selectedModality : Option String)
    (selectedComplications : List String) : Int :=
  match selectedModality with
  | none => 0
  | some m =>
      let additive := (parTimes m).getD 0 +
        (((selectedComplications.filter (fun c => c ≠ "Bilateral")).map
          (fun c => (parTimes c).getD 0)).sum)
      if "Bilateral" ∈ selectedComplications then 2 * additive else additive

/-- Specification-side restatement of `unitValue` (§4.1 of the spec): base
unit value of the kind (0 when missing or non-numeric) plus, for each
selected modifier, its per-kind entry when configured as a sub-mapping,
its value when configured as a plain number, and 0 otherwise.  No
multiplier step. -/
def unitValueSpec (rvuValues : String → Option JSVal)
    (selectedModality : Option String)
    (selectedComplications : List String) : ℚ :=
  match selectedModality with
  | none => 0
  | some m =>
      (match rvuValues m with
       | some (JSVal.num q) => q
       | _ => 0) +
      ((selectedComplications.map (fun c =>
        match rvuValues c with
        | some (JSVal.num q) => q
        | some (JSVal.obj f) =>
            match f m with
            | some (JSVal.num q) => q
            | _ => 0
        | _ => 0)).sum)

/-- A completed-study record (`completedStudies` entries): wall-clock
timestamp in milliseconds and the study's RVU. -/
structure CompletedRecord where
  timestamp : Int
  rvu : ℚ
deriving DecidableEq

/-- The single-level undo snapshot (`LastStudyData` in the source). -/
structure LastStudyData where
  variance : Int
  rvu : ℚ
  streakBefore : Int
deriving DecidableEq

/-- The draft slot (`DraftStudyData` in the source). -/
structure DraftStudyData where
  modality : Option String
  complications : List String
  currentTime : Int
  parTime : Int
deriving DecidableEq

/-- The session state: the React state variables of the component that the
core logic reads or writes.  Counters that only ever accrue by one per tick
are `Int` (JavaScript numbers); `now` is the wall clock in milliseconds
(`Date.now()`), advanced by 1000 per 1 Hz tick. -/
structure AppState where
  isRunning : Bool
  currentTime : Int
  cumulativeVariance : Int
  studiesCompleted : Int
  isPaused : Bool
  doubleTapTime : Int
  isDoubleTapRunning : Bool
  doubleTapEvents : Int
  studyWasAutoPaused : Bool
  sessionTime : Int
  interstitialTime : Int
  isInterstitialRunning : Bool
  isSessionTimeRunning : Bool
  adminTime : Int
  commsTime : Int
  isAdminTimeRunning : Bool
  isCommsTimeRunning : Bool
  adminEvents : Int
  commsEvents : Int
  selectedModality : Option String
  selectedComplications : List String
  parTimes : String → Option Int
  rvuValues : String → Option JSVal
  totalRVU : ℚ
  rvuPerHour : ℚ
  completedStudies : List CompletedRecord
  rollingRVU : ℚ
  lastStudy : Option LastStudyData
  currentStreak : Int
  isDraftMode : Bool
  draftStudy : Option DraftStudyData
  isBreakTimeRunning : Bool
  breakTime : Int
  breaksTaken : Int
  timeSinceLastBreak : Int
  showBreakPrompt : Bool
  breakPromptHours : Int
  lastBreakDeclineTime : Int
  autoStartEnabled : Bool
  now : Int

/-- Par time of the current selection (`currentParTime = calculateParTime()`). -/
def calcPar (s : AppState) : Int :=
  calculateParTime s.parTimes s.selectedModality s.selectedComplications

/-- RVU of the current selection (`currentStudyRVU = calculateRVU()`). -/
def calcRVU (s : AppState) : ℚ :=
  calculateRVU s.rvuValues s.selectedModality s.selectedComplications

/-- The break-prompt condition evaluated inside `completeStudy`
(lines 610-623): with `t = timeSinceLastBreak` seconds, prompt when
`t/60 ≥ 120` minutes and, once a decline is recorded,
`(t − lastBreakDeclineTime)/60 ≥ 60` minutes since the decline. -/
def breakPromptCond (t declineMark : Int) : Bool :=
  let m : ℚ := (t : ℚ) / 60
  let d : ℚ := if declineMark > 0 then ((t : ℚ) - (declineMark : ℚ)) / 60 else m
  decide (m ≥ 120) && decide (d ≥ 60)

/-- The initial component state: every timer stopped and zero, defaults
loaded, no selection, no snapshot, no draft.  The wall clock origin is 0. -/
def initState : AppState where
  isRunning := false
  currentTime := 0
  cumulativeVariance := 0
  studiesCompleted := 0
  isPaused := false
  doubleTapTime := 0
  isDoubleTapRunning := false
  doubleTapEvents := 0
  studyWasAutoPaused := false
  sessionTime := 0
  interstitialTime := 0
  isInterstitialRunning := false
  isSessionTimeRunning := false
  adminTime := 0
  commsTime := 0
  isAdminTimeRunning := false
  isCommsTimeRunning := false
  adminEvents := 0
  commsEvents := 0
  selectedModality := none
  selectedComplications := []
  parTimes := defaultParTimes
  rvuValues := defaultRVUValues
  totalRVU := 0
  rvuPerHour := 0
  completedStudies := []
  rollingRVU := 0
  lastStudy := none
  currentStreak := 0
  isDraftMode := false
  draftStudy := none
  isBreakTimeRunning := false
  breakTime := 0
  breaksTaken := 0
  timeSinceLastBreak := 0
  showBreakPrompt := false
  breakPromptHours := 2
  lastBreakDeclineTime := 0
  autoStartEnabled := false
  now := 0

/-- One 1 Hz tick: each interval timer in the source increments exactly the
counter whose `is...Running` flag is set (`timeSinceLastBreak` runs whenever
the session clock runs and no break is active); the wall clock advances by
1000 ms. -/
def tick (s : AppState) : AppState :=
  { s with
    currentTime := if s.isRunning then s.currentTime + 1 else s.currentTime
    doubleTapTime := if s.isDoubleTapRunning then s.doubleTapTime + 1 else s.doubleTapTime
    sessionTime := if s.isSessionTimeRunning then s.sessionTime + 1 else s.sessionTime
    interstitialTime :=
      if s.isInterstitialRunning then s.interstitialTime + 1 else s.interstitialTime
    adminTime := if s.isAdminTimeRunning then s.adminTime + 1 else s.adminTime
    commsTime := if s.isCommsTimeRunning then s.commsTime + 1 else s.commsTime
    breakTime := if s.isBreakTimeRunning then s.breakTime + 1 else s.breakTime
    timeSinceLastBreak :=
      if s.isSessionTimeRunning && !s.isBreakTimeRunning then
        s.timeSinceLastBreak + 1
      else s.timeSinceLastBreak
    now := s.now + 1000 }

/-- `toggleTimer` (lines 512-540): start or pause the study timer.  On the
very first start the session clock starts; the source also touches the
interstitial flag on and then immediately (0 ms timeout) off, whose net
effect by the next tick is off, modelled here as the net effect. -/
def toggleTimer (s : AppState) : AppState :=
  if s.selectedModality = none ∧ s.isRunning = false then s
  else if s.isRunning = false then
    let s1 := { s with
      isRunning := true
      isPaused := false
      isInterstitialRunning := false
      isAdminTimeRunning := false
      isCommsTimeRunning := false
      isBreakTimeRunning := false }
    if s1.isSessionTimeRunning = false then
      { s1 with isSessionTimeRunning := true }
    else s1
  else
    { s with isRunning := false, isPaused := true, isInterstitialRunning := true }

/-- `completeStudy` (lines 543-624): guarded by a selected modality and a
started timer; computes the variance, updates the streak, writes the undo
snapshot (using the pre-completion streak, as the React closure does),
accumulates variance and RVU, recomputes RVU/hr over the session clock,
appends a completed-study record, recomputes the rolling RVU over the
trailing 60 minutes of wall clock, increments the completion count,
restarts interstitial time, clears the selection and timer, and evaluates
the break-prompt policy. -/
def completeStudy (s : AppState) : AppState :=
  if s.selectedModality = none then s
  else if s.currentTime = 0 ∧ s.isRunning = false then s
  else
    let variance : Int := s.currentTime - calcPar s
    let rvu : ℚ := calcRVU s
    let newStreak : Int :=
      if variance ≤ 0 then min (s.currentStreak + 1) 6 else 0
    let newTotalRVU : ℚ := s.totalRVU + rvu
    let newRvuPerHour : ℚ :=
      if s.sessionTime > 0 then newTotalRVU / ((s.sessionTime : ℚ) / 3600)
      else s.rvuPerHour
    let updatedStudies := s.completedStudies ++ [⟨s.now, rvu⟩]
    let sixtyMinutesAgo : Int := s.now - 60 * 60 * 1000
    let recentStudies := updatedStudies.filter
      (fun r => sixtyMinutesAgo ≤ r.timestamp)
    let newRolling : ℚ := recentStudies.foldl (fun acc r => acc + r.rvu) 0
    let prompt := breakPromptCond s.timeSinceLastBreak s.lastBreakDeclineTime
    { s with
      isRunning := false
      currentStreak := newStreak
      lastStudy := some ⟨variance, rvu, s.currentStreak⟩
      cumulativeVariance := s.cumulativeVariance + variance
      totalRVU := newTotalRVU
      rvuPerHour := newRvuPerHour
      completedStudies := updatedStudies
      rollingRVU := newRolling
      studiesCompleted := s.studiesCompleted + 1
      isInterstitialRunning := true
      currentTime := 0
      isPaused := false
      selectedModality := none
      selectedComplications := []
      breakPromptHours :=
        if prompt then s.timeSinceLastBreak / 3600 else s.breakPromptHours
      showBreakPrompt := if prompt then true else s.showBreakPrompt }

/-- `undoLastStudy` (lines 627-657): with no snapshot, no state change;
otherwise revert variance, streak, total RVU and the completion count,
recompute RVU/hr, and clear the snapshot. -/
def undoLastStudy (s : AppState) : AppState :=
  match s.lastStudy with
  | none => s
  | some ls =>
      let newTotalRVU : ℚ := s.totalRVU - ls.rvu
      { s with
        cumulativeVariance := s.cumulativeVariance - ls.variance
        currentStreak := ls.streakBefore
        totalRVU := newTotalRVU
        rvuPerHour :=
          if s.sessionTime > 0 then newTotalRVU / ((s.sessionTime : ℚ) / 3600)
          else 0
        studiesCompleted := s.studiesCompleted - 1
        lastStudy := none }

/-- `toggleAdminTime` (lines 660-687): start deactivates interstitial and
comms, counts the event, and auto-pauses an actively running study; stop
reactivates interstitial and, when the study was auto-paused, resumes it. -/
def toggleAdminTime (s : AppState) : AppState :=
  if s.isAdminTimeRunning = false then
    let s1 := { s with
      isAdminTimeRunning := true
      isInterstitialRunning := false
      isCommsTimeRunning := false
      adminEvents := s.adminEvents + 1 }
    if s.selectedModality ≠ none ∧ s.isRunning = true then
      { s1 with isRunning := false, isPaused := true, studyWasAutoPaused := true }
    else s1
  else
    let s1 := { s with isAdminTimeRunning := false, isInterstitialRunning := true }
    if s.studyWasAutoPaused then
      { s1 with isRunning := true, isPaused := false, studyWasAutoPaused := false }
    else s1

/-- `toggleCommsTime` (lines 690-717): symmetric to `toggleAdminTime`. -/
def toggleCommsTime (s : AppState) : AppState :=
  if s.isCommsTimeRunning = false then
    let s1 := { s with
      isCommsTimeRunning := true
      isInterstitialRunning := false
      isAdminTimeRunning := false
      commsEvents := s.commsEvents + 1 }
    if s.selectedModality ≠ none ∧ s.isRunning = true then
      { s1 with isRunning := false, isPaused := true, studyWasAutoPaused := true }
    else s1
  else
    let s1 := { s with isCommsTimeRunning := false, isInterstitialRunning := true }
    if s.studyWasAutoPaused then
      { s1 with isRunning := true, isPaused := false, studyWasAutoPaused := false }
    else s1

/-- `toggleBreakTime` (lines 719-737): start deactivates interstitial, admin
and comms, resets the since-last-break clock and the decline mark, and
counts the break; stop reactivates interstitial. -/
def toggleBreakTime (s : AppState) : AppState :=
  if s.isBreakTimeRunning = false then
    { s with
      isBreakTimeRunning := true
      isInterstitialRunning := false
      isAdminTimeRunning := false
      isCommsTimeRunning := false
      timeSinceLastBreak := 0
      lastBreakDeclineTime := 0
      breaksTaken := s.breaksTaken + 1 }
  else
    { s with isBreakTimeRunning := false, isInterstitialRunning := true }

/-- `toggleDoubleTap` (lines 739-759): starting is refused while a study is
in progress (modality selected or elapsed time positive); start deactivates
interstitial and counts the event; stop reactivates interstitial and resets
the per-event double-tap duration. -/
def toggleDoubleTap (s : AppState) : AppState :=
  if (s.selectedModality ≠ none ∨ s.currentTime > 0) ∧ s.isDoubleTapRunning = false then
    s
  else if s.isDoubleTapRunning = false then
    { s with
      isDoubleTapRunning := true
      isInterstitialRunning := false
      doubleTapEvents := s.doubleTapEvents + 1 }
  else
    { s with
      isDoubleTapRunning := false
      isInterstitialRunning := true
      doubleTapTime := 0 }

/-- `toggleDraft` (lines 767-823): entering draft requires a selection,
stops the running timer, snapshots the selection with its elapsed time and
par time, clears the live selection and timer, and starts interstitial
time; exiting requires a saved draft and no actively running timer and
restores the snapshot. -/
def toggleDraft (s : AppState) : AppState :=
  if s.isDraftMode = false then
    if s.selectedModality = none then s
    else
      { s with
        isRunning := false
        draftStudy := some
          ⟨s.selectedModality, s.selectedComplications, s.currentTime, calcPar s⟩
        selectedModality := none
        selectedComplications := []
        currentTime := 0
        isInterstitialRunning := true
        isDraftMode := true }
  else
    match s.draftStudy with
    | none => s
    | some d =>
        if s.isRunning then s
        else
          { s with
            selectedModality := d.modality
            selectedComplications := d.complications
            currentTime := d.currentTime
            isDraftMode := false
            draftStudy := none }

/-- Declining the break prompt (lines 1614-1624): dismisses the prompt and
records the current since-last-break clock as the decline mark. -/
def declineBreak (s : AppState) : AppState :=
  { s with showBreakPrompt := false, lastBreakDeclineTime := s.timeSinceLastBreak }

/-- Accepting the break prompt (lines 1605-1613): dismisses the prompt and
starts the break. -/
def acceptBreak (s : AppState) : AppState :=
  toggleBreakTime { s with showBreakPrompt := false }

/-- Selecting a modality (line 2003) together with the auto-start policy
effect (lines 495-501): when auto-start is enabled, no timer is running and
draft mode is off, the timer starts immediately. -/
def selectModality (m : String) (s : AppState) : AppState :=
  let s1 := { s with selectedModality := some m }
  if s1.autoStartEnabled ∧ s1.isRunning = false ∧ s1.isDraftMode = false then
    toggleTimer s1
  else s1

/-- `toggleComplication` (lines 826-832). -/
def toggleComplication (c : String) (s : AppState) : AppState :=
  if s.selectedComplications.contains c then
    { s with selectedComplications := s.selectedComplications.filter (fun x => x ≠ c) }
  else
    { s with selectedComplications := s.selectedComplications ++ [c] }

/-- `toggleAutoStart` (lines 762-764) together with the auto-start effect
(lines 495-501), which also fires when the preference turns on while a
modality is selected and no timer runs. -/
def toggleAutoStart (s : AppState) : AppState :=
  let s1 := { s with autoStartEnabled := !s.autoStartEnabled }
  if s1.autoStartEnabled ∧ s1.selectedModality ≠ none ∧ s1.isRunning = false
      ∧ s1.isDraftMode = false then
    toggleTimer s1
  else s1

/-- The interstitial tile click handler (lines 1834-1840): while admin or
comms runs, stop both and restart interstitial. -/
def resumeInterstitial (s : AppState) : AppState :=
  if s.isAdminTimeRunning ∨ s.isCommsTimeRunning then
    { s with
      isAdminTimeRunning := false
      isCommsTimeRunning := false
      isInterstitialRunning := true }
  else s

/-- `updateParTime` (lines 835-841), with the parsed value. -/
def updateParTime (k : String) (v : Int) (s : AppState) : AppState :=
  { s with parTimes := fun key => if key = k then some v else s.parTimes key }

/-- `updateRVUValue` (lines 844-862) for a direct value, with the parsed value. -/
def updateRVUValueDirect (k : String) (v : ℚ) (s : AppState) : AppState :=
  { s with rvuValues := fun key => if key = k then some (JSVal.num v) else s.rvuValues key }

/-- A user- or policy-triggered transition of the component, or one clock
tick. -/
inductive Event where
  | tick
  | selectModality (m : String)
  | toggleComplication (c : String)
  | toggleTimer
  | completeStudy
  | undoLastStudy
  | toggleAdminTime
  | toggleCommsTime
  | toggleBreakTime
  | toggleDoubleTap
  | toggleDraft
  | declineBreak
  | acceptBreak
  | toggleAutoStart
  | resumeInterstitial
  | updateParTime (k : String) (v : Int)
  | updateRVUValueDirect (k : String) (v : ℚ)

/-- Dispatch one event. -/
def step (s : AppState) : Event → AppState
  | Event.tick => tick s
  | Event.selectModality m => selectModality m s
  | Event.toggleComplication c => toggleComplication c s
  | Event.toggleTimer => toggleTimer s
  | Event.completeStudy => completeStudy s
  | Event.undoLastStudy => undoLastStudy s
  | Event.toggleAdminTime => toggleAdminTime s
  | Event.toggleCommsTime => toggleCommsTime s
  | Event.toggleBreakTime => toggleBreakTime s
  | Event.toggleDoubleTap => toggleDoubleTap s
  | Event.toggleDraft => toggleDraft s
  | Event.declineBreak => declineBreak s
  | Event.acceptBreak => acceptBreak s
  | Event.toggleAutoStart => toggleAutoStart s
  | Event.resumeInterstitial => resumeInterstitial s
  | Event.updateParTime k v => updateParTime k v s
  | Event.updateRVUValueDirect k v => updateRVUValueDirect k v s

/-- Run a sequence of events from a state. -/
def run (s : AppState) (evs : List Event) : AppState :=
  evs.foldl step s

/-- `n` clock ticks in a row. -/
def tickN : Nat → AppState → AppState
  | 0, s => s
  | n + 1, s => tickN n (tick s)

/-! ## CSV settings exchange (`exportSettings` / `importSettings`) -/

/-- JavaScript-object assignment on an insertion-ordered association list:
replace the value of an existing key in place, or append a new key. -/
def setA {α : Type} (l : List (String × α)) (k : String) (v : α) :
    List (String × α) :=
  if l.any (fun kv => kv.1 = k) then
    l.map (fun kv => if kv.1 = k then (k, v) else kv)
  else l ++ [(k, v)]

/-- The whitespace characters relevant to the ASCII CSV data, for the
JavaScript `trim`. -/
def isWS (c : Char) : Bool :=
  c = ' ' || c = '\t' || c = '\n' || c = '\r'

/-- JavaScript `String.prototype.trim` on ASCII data. -/
def jsTrim (s : String) : String :=
  ⟨((s.data.dropWhile isWS).reverse.dropWhile isWS).reverse⟩

/-- `text.split('\n')`: split at every newline, keeping empty pieces. -/
def splitOnNewline (s : String) : List String :=
  (s.data.foldr
    (fun c acc =>
      match acc with
      | [] => if c = '\n' then [[], []] else [[c]]
      | first :: rest => if c = '\n' then [] :: first :: rest else (c :: first) :: rest)
    [[]]).map (fun cs => (⟨cs⟩ : String))

/-- `value.replace(/"/g, '')`: delete every double-quote character. -/
def stripQuotes (s : String) : String :=
  ⟨s.data.filter (fun c => c ≠ '"')⟩

/-- JavaScript `parseInt` in base 10: skip leading whitespace, optional
sign, then the longest digit prefix; `none` (NaN) when there is no digit. -/
def jsParseInt (s : String) : Option Int :=
  let cs := s.data.dropWhile isWS
  let signAndRest : Int × List Char :=
    match cs with
    | '-' :: rest => (-1, rest)
    | '+' :: rest => (1, rest)
    | _ => (1, cs)
  let digits := signAndRest.2.takeWhile (fun c => c.isDigit)
  if digits.isEmpty then none
  else some (signAndRest.1 *
    (digits.foldl (fun acc c => acc * 10 + (c.toNat - 48)) (0 : Nat) : Nat))

/-- `parseInt(value) || 0`: NaN is coerced to 0. -/
def jsParseIntD (s : String) : Int := (jsParseInt s).getD 0

/-- JavaScript `parseFloat` restricted to plain decimal notation (the only
notation the settings CSV carries): skip leading whitespace, optional sign,
digits, optional fraction; `none` (NaN) when there is no digit at all. -/
def jsParseFloat (s : String) : Option ℚ :=
  let cs := s.data.dropWhile isWS
  let signAndRest : ℚ × List Char :=
    match cs with
    | '-' :: rest => (-1, rest)
    | '+' :: rest => (1, rest)
    | _ => (1, cs)
  let ipart := signAndRest.2.takeWhile (fun c => c.isDigit)
  let rest := signAndRest.2.drop ipart.length
  let fpart : List Char :=
    match rest with
    | '.' :: r => r.takeWhile (fun c => c.isDigit)
    | _ => []
  if ipart.isEmpty && fpart.isEmpty then none
  else
    let iv : Nat := ipart.foldl (fun a c => a * 10 + (c.toNat - 48)) 0
    let fv : Nat := fpart.foldl (fun a c => a * 10 + (c.toNat - 48)) 0
    some (signAndRest.1 * ((iv : ℚ) + (fv : ℚ) / ((10 : ℚ) ^ fpart.length)))

/-- `parseFloat(value) || 0`: NaN is coerced to 0. -/
def jsParseFloatD (s : String) : ℚ := (jsParseFloat s).getD 0

/-- Fractional decimal digits of `r / d` with fuel (all values rendered by
the export terminate well within the fuel). -/
def decimalDigits : Nat → Nat → Nat → List Char
  | 0, _, _ => []
  | fuel + 1, r, d =>
      if r = 0 then []
      else Char.ofNat (48 + r * 10 / d) :: decimalDigits fuel (r * 10 % d) d

/-- JavaScript number-to-string conversion for the terminating decimals the
settings hold: integers print without a decimal point, other values print
their (terminating) decimal expansion. -/
def jsNumToString (q : ℚ) : String :=
  let sign := if q.num < 0 then "-" else ""
  let n := q.num.natAbs
  let ip := n / q.den
  let r := n % q.den
  if r = 0 then sign ++ toString ip
  else sign ++ toString ip ++ "." ++ (⟨decimalDigits 30 r q.den⟩ : String)

/-- `exportSettings` (lines 865-905): a fixed four-column header, one
`Par Time,"key",value,` row per par-time entry, and for the RVU mapping one
`RVU,"key",value,"modality"` row per sub-entry of an object value or a
single `RVU,"key",value,` row for a plain number. -/
def exportSettings (parTimes : List (String × Int))
    (rvuValues : List (String × RVUEntry)) : String :=
  let header := "Setting Type,Key,Value,Modality"
  let parRows := parTimes.map
    (fun kv => "Par Time,\"" ++ kv.1 ++ "\"," ++ toString kv.2 ++ ",")
  let rvuRows := rvuValues.flatMap
    (fun kv =>
      match kv.2 with
      | RVUEntry.obj entries =>
          entries.map (fun me =>
            "RVU,\"" ++ kv.1 ++ "\"," ++ jsNumToString me.2 ++ ",\"" ++ me.1 ++ "\"")
      | RVUEntry.num q =>
          ["RVU,\"" ++ kv.1 ++ "\"," ++ jsNumToString q ++ ","])
  String.intercalate "\n" (header :: (parRows ++ rvuRows))

/-- One step of `line.match(/(?:"([^"]*)"|([^,]*))/g)` (line 927), following
the ECMAScript global-match algorithm: at each position, match a quoted
chunk when the position starts a quote that is closed later, otherwise the
longest comma-free run; an empty match is recorded and the position then
advances by one character; at the end of the string one final empty match is
recorded.  The fuel argument (always called with more fuel than characters)
makes the recursion structural. -/
def jsMatchAllFuel : Nat → List Char → List String
  | 0, _ => []
  | _ + 1, [] => [""]
  | fuel + 1, c :: rest =>
      if c = '"' && rest.contains '"' then
        let inside := rest.takeWhile (fun x => x ≠ '"')
        let rest2 := (rest.dropWhile (fun x => x ≠ '"')).drop 1
        (⟨'"' :: (inside ++ ['"'])⟩ : String) :: jsMatchAllFuel fuel rest2
      else
        let piece := (c :: rest).takeWhile (fun x => x ≠ ',')
        if piece.isEmpty then ("" : String) :: jsMatchAllFuel fuel rest
        else (⟨piece⟩ : String) :: jsMatchAllFuel fuel ((c :: rest).drop piece.length)

/-- All matches of the field regex on a line. -/
def jsMatchAll (line : String) : List String :=
  jsMatchAllFuel (line.data.length + 1) line.data

/-- Processing of one data row of the imported CSV (lines 922-949): blank
lines and rows with fewer than three matches are skipped; fields are
dequoted and trimmed; `Par Time` rows assign a parsed integer; `RVU` rows
with a modality ensure an object value (replacing a missing or falsy-zero
entry) and assign into it, and rows without a modality assign a parsed
number directly. -/
def importLine (acc : List (String × Int) × List (String × RVUEntry))
    (rawLine : String) : List (String × Int) × List (String × RVUEntry) :=
  let line := jsTrim rawLine
  if line = "" then acc
  else
    let ms := jsMatchAll line
    if ms.length < 3 then acc
    else
      let settingType := jsTrim (stripQuotes (ms.getD 0 ""))
      let key := jsTrim (stripQuotes (ms.getD 1 ""))
      let value := jsTrim (stripQuotes (ms.getD 2 ""))
      let m3 := ms.getD 3 ""
      let modality := if m3 = "" then "" else jsTrim (stripQuotes m3)
      if settingType = "Par Time" then
        (setA acc.1 key (jsParseIntD value), acc.2)
      else if settingType = "RVU" then
        if modality ≠ "" then
          let ensured :=
            match acc.2.lookup key with
            | none => setA acc.2 key (RVUEntry.obj [])
            | some (RVUEntry.num q) =>
                if q = 0 then setA acc.2 key (RVUEntry.obj []) else acc.2
            | some (RVUEntry.obj _) => acc.2
          match ensured.lookup key with
          | some (RVUEntry.obj entries) =>
              (acc.1, setA ensured key (RVUEntry.obj (setA entries modality (jsParseFloatD value))))
          | _ => (acc.1, ensured)
        else
          (acc.1, setA acc.2 key (RVUEntry.num (jsParseFloatD value)))
      else acc

/-- `importSettings` (lines 908-963): split the text into lines, start from
the defaults, skip the header row, and fold every remaining line through
`importLine`. -/
def importSettings (text : String) :
    List (String × Int) × List (String × RVUEntry) :=
  ((splitOnNewline text).drop 1).foldl importLine
    (defaultParTimesList, defaultRVUValuesList)

/-! ## Helper lemmas -/

theorem run_append (s : AppState) (l1 l2 : List Event) :
    run s (l1 ++ l2) = run (run s l1) l2 :=
  List.foldl_append step s l1 l2

theorem run_replicate_tick (n : Nat) (s : AppState) :
    run s (List.replicate n Event.tick) = tickN n s := by
  induction n generalizing s with
  | zero => rfl
  | succ n ih =>
      rw [List.replicate_succ]
      show run (tick s) (List.replicate n Event.tick) = tickN (n + 1) s
      rw [ih]
      rfl

/-- Closed form of `n` consecutive ticks: every counter whose flag is set
gains `n`, the wall clock gains `1000 n`, and nothing else changes. -/
theorem tickN_eq (n : Nat) (s : AppState) :
    tickN n s = { s with
      currentTime := if s.isRunning then s.currentTime + n else s.currentTime
      doubleTapTime :=
        if s.isDoubleTapRunning then s.doubleTapTime + n else s.doubleTapTime
      sessionTime :=
        if s.isSessionTimeRunning then s.sessionTime + n else s.sessionTime
      interstitialTime :=
        if s.isInterstitialRunning then s.interstitialTime + n else s.interstitialTime
      adminTime := if s.isAdminTimeRunning then s.adminTime + n else s.adminTime
      commsTime := if s.isCommsTimeRunning then s.commsTime + n else s.commsTime
      breakTime := if s.isBreakTimeRunning then s.breakTime + n else s.breakTime
      timeSinceLastBreak :=
        if s.isSessionTimeRunning && !s.isBreakTimeRunning then
          s.timeSinceLastBreak + n
        else s.timeSinceLastBreak
      now := s.now + 1000 * n } := by
  induction n generalizing s with
  | zero => simp [tickN]
  | succ n ih =>
      show tickN n (tick s) = _
      rw [ih]
      cases s
      simp only [tick, AppState.mk.injEq]
      repeat' apply And.intro
      all_goals (first | trivial | omega | (split_ifs <;> first | rfl | omega))



theorem parTime_foldl (pt : String → Option Int) (comps : List String) (a : Int) :
    comps.foldl (fun acc c => if c = "Bilateral" then acc else acc + (pt c).getD 0) a
      = a + ((comps.filter (fun c => c ≠ "Bilateral")).map (fun c => (pt c).getD 0)).sum := by
  induction comps generalizing a with
  | nil => simp
  | cons c cs ih =>
      by_cases h : c = "Bilateral"
      · simp [h, ih]
      · simp [h, ih]
        ring

theorem calculateParTime_eq_spec (pt : String → Option Int) (md : Option String)
    (comps : List String) :
    calculateParTime pt md comps = targetDurationSpec pt md comps := by
  cases md with
  | none => rfl
  | some m =>
      simp only [calculateParTime, targetDurationSpec, parTime_foldl]
      have hc : comps.contains "Bilateral" = decide ("Bilateral" ∈ comps) := by
        simp [List.contains, List.elem_eq_mem]
      rw [hc]
      by_cases hb : "Bilateral" ∈ comps
      · simp [hb]
        ring
      · simp [hb]



theorem rvu_foldl (rv : String → Option JSVal) (m : String) (comps : List String) (a : ℚ) :
    comps.foldl
      (fun total comp =>
        match rv comp with
        | some (JSVal.num q) => total + q
        | some (JSVal.obj f) =>
            match f m with
            | some (JSVal.num q) => total + q
            | _ => total
        | _ => total)
      a
      = a + ((comps.map (fun c =>
          match rv c with
          | some (JSVal.num q) => q
          | some (JSVal.obj f) =>
              match f m with
              | some (JSVal.num q) => q
              | _ => 0
          | _ => 0)).sum) := by
  induction comps generalizing a with
  | nil => simp
  | cons c cs ih =>
      simp only [List.foldl_cons, List.map_cons, List.sum_cons, ih]
      rcases hc : rv c with _ | v
      · simp
      · rcases v with q | f | _
        · simp
          ring
        · rcases hf : f m with _ | w
          · simp [hf]
          · rcases w with q | g | _
            · simp [hf]
              ring
            · simp [hf]
            · simp [hf]
        · simp

theorem calculateRVU_eq_spec (rv : String → Option JSVal) (md : Option String)
    (comps : List String) :
    calculateRVU rv md comps = unitValueSpec rv md comps := by
  cases md with
  | none => rfl
  | some m => simp only [calculateRVU, unitValueSpec, rvu_foldl]

theorem targetDurationSpec_nonneg (pt : String → Option Int) (m : String)
    (comps : List String) (h : ∀ c ∈ m :: comps, 0 ≤ (pt c).getD 0) :
    0 ≤ targetDurationSpec pt (some m) comps := by
  have hbase : 0 ≤ (pt m).getD 0 := h m (List.mem_cons_self m comps)
  have hsum : 0 ≤ ((comps.filter (fun c => c ≠ "Bilateral")).map
      (fun c => (pt c).getD 0)).sum := by
    apply List.sum_nonneg
    intro x hx
    rcases List.mem_map.mp hx with ⟨c, hcmem, rfl⟩
    exact h c (List.mem_cons_of_mem m (List.mem_of_mem_filter hcmem))
  simp only [targetDurationSpec]
  split_ifs <;> omega



/-- Unfolding of `completeStudy` when both guards pass. -/
theorem completeStudy_eq (s : AppState) (hg1 : ¬ s.selectedModality = none)
    (hg2 : ¬ (s.currentTime = 0 ∧ s.isRunning = false)) :
    completeStudy s = { s with
      isRunning := false
      currentStreak :=
        if s.currentTime - calcPar s ≤ 0 then min (s.currentStreak + 1) 6 else 0
      lastStudy := some ⟨s.currentTime - calcPar s, calcRVU s, s.currentStreak⟩
      cumulativeVariance := s.cumulativeVariance + (s.currentTime - calcPar s)
      totalRVU := s.totalRVU + calcRVU s
      rvuPerHour :=
        if s.sessionTime > 0 then (s.totalRVU + calcRVU s) / ((s.sessionTime : ℚ) / 3600)
        else s.rvuPerHour
      completedStudies := s.completedStudies ++ [(⟨s.now, calcRVU s⟩ : CompletedRecord)]
      rollingRVU :=
        ((s.completedStudies ++ [(⟨s.now, calcRVU s⟩ : CompletedRecord)]).filter
          (fun r : CompletedRecord => s.now - 60 * 60 * 1000 ≤ r.timestamp)).foldl
          (fun (acc : ℚ) (r : CompletedRecord) => acc + r.rvu) 0
      studiesCompleted := s.studiesCompleted + 1
      isInterstitialRunning := true
      currentTime := 0
      isPaused := false
      selectedModality := none
      selectedComplications := []
      breakPromptHours :=
        if breakPromptCond s.timeSinceLastBreak s.lastBreakDeclineTime then
          s.timeSinceLastBreak / 3600
        else s.breakPromptHours
      showBreakPrompt :=
        if breakPromptCond s.timeSinceLastBreak s.lastBreakDeclineTime then true
        else s.showBreakPrompt } := by
  simp only [completeStudy, if_neg hg1, if_neg hg2]

/-- `completeStudy` is a no-op when a guard fails. -/
theorem completeStudy_noop (s : AppState)
    (h : s.selectedModality = none ∨ (s.currentTime = 0 ∧ s.isRunning = false)) :
    completeStudy s = s := by
  rcases h with h | h
  · simp only [completeStudy, if_pos h]
  · by_cases h1 : s.selectedModality = none
    · simp only [completeStudy, if_pos h1]
    · simp only [completeStudy, if_neg h1, if_pos h]

/-- Auxiliary invariant for the streak bound: the live streak and any
snapshotted streak are within [0, 6]. -/
def StreakInv (s : AppState) : Prop :=
  0 ≤ s.currentStreak ∧ s.currentStreak ≤ 6 ∧
    ∀ ls, s.lastStudy = some ls → 0 ≤ ls.streakBefore ∧ ls.streakBefore ≤ 6

theorem streakInv_init : StreakInv initState :=
  ⟨by decide, by decide, fun ls h => by simp [initState] at h⟩

theorem streakInv_toggleTimer (s : AppState) (h : StreakInv s) :
    StreakInv (toggleTimer s) := by
  obtain ⟨h0, h6, hls⟩ := h
  simp only [toggleTimer]
  split_ifs <;> exact ⟨h0, h6, hls⟩

theorem streakInv_step (s : AppState) (e : Event) (h : StreakInv s) :
    StreakInv (step s e) := by
  obtain ⟨h0, h6, hls⟩ := h
  cases e with
  | tick => exact ⟨h0, h6, hls⟩
  | selectModality m =>
      simp only [step, selectModality]
      split_ifs
      · exact streakInv_toggleTimer _ ⟨h0, h6, hls⟩
      · exact ⟨h0, h6, hls⟩
  | toggleComplication c =>
      simp only [step, toggleComplication]
      split_ifs <;> exact ⟨h0, h6, hls⟩
  | toggleTimer => exact streakInv_toggleTimer _ ⟨h0, h6, hls⟩
  | completeStudy =>
      show StreakInv (completeStudy s)
      by_cases hg1 : s.selectedModality = none
      · rw [completeStudy_noop s (Or.inl hg1)]
        exact ⟨h0, h6, hls⟩
      by_cases hg2 : s.currentTime = 0 ∧ s.isRunning = false
      · rw [completeStudy_noop s (Or.inr hg2)]
        exact ⟨h0, h6, hls⟩
      rw [completeStudy_eq s hg1 hg2]
      refine ⟨?_, ?_, ?_⟩
      · show (0 : Int) ≤
          if s.currentTime - calcPar s ≤ 0 then min (s.currentStreak + 1) 6 else 0
        split_ifs <;> omega
      · show (if s.currentTime - calcPar s ≤ 0 then
            min (s.currentStreak + 1) 6 else (0 : Int)) ≤ 6
        split_ifs <;> omega
      · intro ls hl
        replace hl : some (⟨s.currentTime - calcPar s, calcRVU s, s.currentStreak⟩ :
            LastStudyData) = some ls := hl
        simp only [Option.some.injEq] at hl
        rw [← hl]
        exact ⟨h0, h6⟩
  | undoLastStudy =>
      show StreakInv (undoLastStudy s)
      rw [undoLastStudy]
      cases hd : s.lastStudy with
      | none => exact ⟨h0, h6, hls⟩
      | some ls =>
          obtain ⟨hb0, hb6⟩ := hls ls hd
          refine ⟨hb0, hb6, ?_⟩
          intro ls' hl'
          simp at hl'
  | toggleAdminTime =>
      simp only [step, toggleAdminTime]
      split_ifs <;> exact ⟨h0, h6, hls⟩
  | toggleCommsTime =>
      simp only [step, toggleCommsTime]
      split_ifs <;> exact ⟨h0, h6, hls⟩
  | toggleBreakTime =>
      simp only [step, toggleBreakTime]
      split_ifs <;> exact ⟨h0, h6, hls⟩
  | toggleDoubleTap =>
      simp only [step, toggleDoubleTap]
      split_ifs <;> exact ⟨h0, h6, hls⟩
  | toggleDraft =>
      show StreakInv (toggleDraft s)
      rw [toggleDraft]
      by_cases h1 : s.isDraftMode = false
      · rw [if_pos h1]
        by_cases h2 : s.selectedModality = none
        · rw [if_pos h2]
          exact ⟨h0, h6, hls⟩
        · rw [if_neg h2]
          exact ⟨h0, h6, hls⟩
      · rw [if_neg h1]
        cases hd : s.draftStudy with
        | none => exact ⟨h0, h6, hls⟩
        | some d =>
            by_cases h3 : s.isRunning = true
            · simp only [if_pos h3]
              exact ⟨h0, h6, hls⟩
            · simp only [if_neg h3]
              exact ⟨h0, h6, hls⟩
  | declineBreak => exact ⟨h0, h6, hls⟩
  | acceptBreak =>
      simp only [step, acceptBreak, toggleBreakTime]
      split_ifs <;> exact ⟨h0, h6, hls⟩
  | toggleAutoStart =>
      simp only [step, toggleAutoStart]
      split_ifs
      · exact streakInv_toggleTimer _ ⟨h0, h6, hls⟩
      · exact ⟨h0, h6, hls⟩
  | resumeInterstitial =>
      simp only [step, resumeInterstitial]
      split_ifs <;> exact ⟨h0, h6, hls⟩
  | updateParTime k v => exact ⟨h0, h6, hls⟩
  | updateRVUValueDirect k v => exact ⟨h0, h6, hls⟩

theorem streakInv_run (s : AppState) (evs : List Event) (h : StreakInv s) :
    StreakInv (run s evs) := by
  induction evs generalizing s with
  | nil => exact h
  | cons e evs ih => exact ih (step s e) (streakInv_step s e h)



/-- Auxiliary invariant for the completion count: it is non-negative, and
whenever an undo snapshot exists the count is at least 1. -/
def CountInv (s : AppState) : Prop :=
  0 ≤ s.studiesCompleted ∧ ∀ ls, s.lastStudy = some ls → 1 ≤ s.studiesCompleted

theorem countInv_init : CountInv initState :=
  ⟨by decide, fun ls h => by simp [initState] at h⟩

theorem countInv_toggleTimer (s : AppState) (h : CountInv s) :
    CountInv (toggleTimer s) := by
  obtain ⟨h0, hls⟩ := h
  simp only [toggleTimer]
  split_ifs <;> exact ⟨h0, hls⟩

theorem countInv_step (s : AppState) (e : Event) (h : CountInv s) :
    CountInv (step s e) := by
  obtain ⟨h0, hls⟩ := h
  cases e with
  | tick => exact ⟨h0, hls⟩
  | selectModality m =>
      simp only [step, selectModality]
      split_ifs
      · exact countInv_toggleTimer _ ⟨h0, hls⟩
      · exact ⟨h0, hls⟩
  | toggleComplication c =>
      simp only [step, toggleComplication]
      split_ifs <;> exact ⟨h0, hls⟩
  | toggleTimer => exact countInv_toggleTimer _ ⟨h0, hls⟩
  | completeStudy =>
      show CountInv (completeStudy s)
      by_cases hg1 : s.selectedModality = none
      · rw [completeStudy_noop s (Or.inl hg1)]
        exact ⟨h0, hls⟩
      by_cases hg2 : s.currentTime = 0 ∧ s.isRunning = false
      · rw [completeStudy_noop s (Or.inr hg2)]
        exact ⟨h0, hls⟩
      rw [completeStudy_eq s hg1 hg2]
      refine ⟨?_, ?_⟩
      · show (0 : Int) ≤ s.studiesCompleted + 1
        omega
      · intro ls hl
        show (1 : Int) ≤ s.studiesCompleted + 1
        omega
  | undoLastStudy =>
      show CountInv (undoLastStudy s)
      rw [undoLastStudy]
      cases hd : s.lastStudy with
      | none => exact ⟨h0, hls⟩
      | some ls =>
          have h1 := hls ls hd
          refine ⟨?_, ?_⟩
          · show (0 : Int) ≤ s.studiesCompleted - 1
            omega
          · intro ls' hl'
            simp at hl'
  | toggleAdminTime =>
      simp only [step, toggleAdminTime]
      split_ifs <;> exact ⟨h0, hls⟩
  | toggleCommsTime =>
      simp only [step, toggleCommsTime]
      split_ifs <;> exact ⟨h0, hls⟩
  | toggleBreakTime =>
      simp only [step, toggleBreakTime]
      split_ifs <;> exact ⟨h0, hls⟩
  | toggleDoubleTap =>
      simp only [step, toggleDoubleTap]
      split_ifs <;> exact ⟨h0, hls⟩
  | toggleDraft =>
      show CountInv (toggleDraft s)
      rw [toggleDraft]
      by_cases h1 : s.isDraftMode = false
      · rw [if_pos h1]
        by_cases h2 : s.selectedModality = none
        · rw [if_pos h2]
          exact ⟨h0, hls⟩
        · rw [if_neg h2]
          exact ⟨h0, hls⟩
      · rw [if_neg h1]
        cases hd : s.draftStudy with
        | none => exact ⟨h0, hls⟩
        | some d =>
            by_cases h3 : s.isRunning = true
            · simp only [if_pos h3]
              exact ⟨h0, hls⟩
            · simp only [if_neg h3]
              exact ⟨h0, hls⟩
  | declineBreak => exact ⟨h0, hls⟩
  | acceptBreak =>
      simp only [step, acceptBreak, toggleBreakTime]
      split_ifs <;> exact ⟨h0, hls⟩
  | toggleAutoStart =>
      simp only [step, toggleAutoStart]
      split_ifs
      · exact countInv_toggleTimer _ ⟨h0, hls⟩
      · exact ⟨h0, hls⟩
  | resumeInterstitial =>
      simp only [step, resumeInterstitial]
      split_ifs <;> exact ⟨h0, hls⟩
  | updateParTime k v => exact ⟨h0, hls⟩
  | updateRVUValueDirect k v => exact ⟨h0, hls⟩

theorem countInv_run (s : AppState) (evs : List Event) (h : CountInv s) :
    CountInv (run s evs) := by
  induction evs generalizing s with
  | nil => exact h
  | cons e evs ih => exact ih (step s e) (countInv_step s e h)



/-! ## Claim theorems -/

/-- C1: the claim that at most one of Working, Interstitial, Admin, Comms,
OnBreak, QuickReview is active after any transition sequence is refuted by
the code: starting a break and then starting admin leaves both OnBreak and
Admin active, and interrupting a running study with admin and then stopping
admin leaves both Working and Interstitial active (two timers accrue). -/
theorem mutualExclusion_violated :
    ((run initState [Event.toggleBreakTime, Event.toggleAdminTime]).isBreakTimeRunning = true ∧
     (run initState [Event.toggleBreakTime, Event.toggleAdminTime]).isAdminTimeRunning = true) ∧
    ((run initState [Event.selectModality "CT", Event.toggleTimer,
        Event.toggleAdminTime, Event.toggleAdminTime]).isRunning = true ∧
     (run initState [Event.selectModality "CT", Event.toggleTimer,
        Event.toggleAdminTime, Event.toggleAdminTime]).isInterstitialRunning = true) :=
  ⟨⟨rfl, rfl⟩, ⟨rfl, rfl⟩⟩

/-- C2: `calculateParTime` returns 0 with no modality selected and otherwise
equals the spec's target duration (additive modifiers except Bilateral, then
doubling exactly when Bilateral is present); it is non-negative whenever the
relevant configuration entries are, and the CT + "+1 Section" + Bilateral
default scenario gives (240 + 120) * 2 = 720. -/
theorem targetDuration_correct (pt : String → Option Int) (md : Option String)
    (m : String) (comps : List String) :
    calculateParTime pt md comps = targetDurationSpec pt md comps ∧
    calculateParTime pt none comps = 0 ∧
    ((∀ c ∈ m :: comps, 0 ≤ (pt c).getD 0) → 0 ≤ calculateParTime pt (some m) comps) ∧
    calculateParTime defaultParTimes (some "CT") ["+1 Section", "Bilateral"] = 720 := by
  refine ⟨calculateParTime_eq_spec pt md comps, rfl, ?_, by decide⟩
  intro h
  rw [calculateParTime_eq_spec]
  exact targetDurationSpec_nonneg pt m comps h

theorem targetDuration_correct_witness :
    0 ≤ calculateParTime defaultParTimes (some "CT") ["+1 Section", "Bilateral"] ∧
    calculateParTime defaultParTimes (some "CT") ["+1 Section", "Bilateral"] = 720 := by
  have h := targetDuration_correct defaultParTimes (some "CT") "CT" ["+1 Section", "Bilateral"]
  exact ⟨h.2.2.1 (by decide), h.2.2.2⟩

/-- C10: the completion counter is never negative after any sequence of
events: only `undoLastStudy` decrements it, the decrement is guarded by the
existence of the undo snapshot, and a snapshot guarantees a prior
completion. -/
theorem completedCount_nonneg (evs : List Event) :
    0 ≤ (run initState evs).studiesCompleted :=
  (countInv_run initState evs countInv_init).1

section
attribute [local semireducible] Rat.add Rat.mul Rat.inv Rat.sub Rat.ofScientific

/-- A configuration giving the Bilateral tag a numeric unit value. -/
def bilateralRVUConfig : String → Option JSVal := fun k =>
  if k = "CT" then some (JSVal.num 1)
  else if k = "Bilateral" then some (JSVal.num 1)
  else none

/-- C7 counterexample: with a configuration that gives Bilateral a numeric
entry, selecting the Bilateral flag changes `calculateRVU` (2 versus 1), so
the flag does not leave the unit value unchanged for every configuration. -/
theorem bilateral_affects_unitValue :
    calculateRVU bilateralRVUConfig (some "CT") ["Bilateral"] ≠
      calculateRVU bilateralRVUConfig (some "CT") [] := by
  decide

/-- C7 (amended): `calculateRVU` returns 0 with no modality and otherwise
equals the spec's unit value (per-kind sub-mapping entries when present and
numeric, plain numbers directly, 0 otherwise, with no multiplier step and no
error on any configuration contents); under the default configuration, where
Bilateral has no unit-value entry, selecting Bilateral never changes the
result. -/
theorem unitValue_correct_amended (rv : String → Option JSVal)
    (md : Option String) (comps : List String) :
    calculateRVU rv md comps = unitValueSpec rv md comps ∧
    calculateRVU rv none comps = 0 ∧
    (∀ m, calculateRVU defaultRVUValues (some m) ("Bilateral" :: comps) =
      calculateRVU defaultRVUValues (some m) comps) := by
  refine ⟨calculateRVU_eq_spec rv md comps, rfl, ?_⟩
  intro m
  have hb : defaultRVUValues "Bilateral" = none := rfl
  simp only [calculateRVU, List.foldl_cons, hb]

set_option maxRecDepth 10000 in
/-- C9: the CSV import cannot parse the CSV export's own output: importing
the export of a configuration whose XR par time is 100 leaves XR at the
default 90 (the field regex produces an empty match between fields, so every
row's key parses as the empty string) and instead stores a bogus entry under
the empty-string key. -/
theorem import_export_roundtrip_fails :
    (importSettings (exportSettings [("XR", 100)] [])).1.lookup "XR" = some 90 ∧
    ([(("XR" : String), (100 : Int))].lookup "XR" = some 100) ∧
    (importSettings (exportSettings [("XR", 100)] [])).1.lookup "" = some 0 := by
  refine ⟨by decide, by decide, by decide⟩

end



/-- C3: completing a work item and immediately undoing restores cumulative
variance, total RVU, streak and the completion count exactly, and an undo
with no snapshot changes nothing. -/
theorem complete_undo_restores (s : AppState) (hm : s.selectedModality ≠ none)
    (hr : s.currentTime ≠ 0 ∨ s.isRunning = true) :
    (undoLastStudy (completeStudy s)).cumulativeVariance = s.cumulativeVariance ∧
    (undoLastStudy (completeStudy s)).totalRVU = s.totalRVU ∧
    (undoLastStudy (completeStudy s)).currentStreak = s.currentStreak ∧
    (undoLastStudy (completeStudy s)).studiesCompleted = s.studiesCompleted ∧
    ∀ t : AppState, t.lastStudy = none → undoLastStudy t = t := by
  have h2 : ¬ (s.currentTime = 0 ∧ s.isRunning = false) := by
    rcases hr with h | h
    · exact fun hc => h hc.1
    · intro hc
      rw [h] at hc
      exact absurd hc.2 (by simp)
  refine ⟨?_, ?_, ?_, ?_, ?_⟩
  · simp [completeStudy, undoLastStudy, if_neg hm, if_neg h2]
  · simp [completeStudy, undoLastStudy, if_neg hm, if_neg h2]
  · simp [completeStudy, undoLastStudy, if_neg hm, if_neg h2]
  · simp [completeStudy, undoLastStudy, if_neg hm, if_neg h2]
  · intro t ht
    simp [undoLastStudy, ht]

theorem complete_undo_restores_witness :
    (undoLastStudy (completeStudy (run initState
        [Event.selectModality "CT", Event.toggleTimer]))).cumulativeVariance =
      (run initState [Event.selectModality "CT", Event.toggleTimer]).cumulativeVariance ∧
    (undoLastStudy (completeStudy (run initState
        [Event.selectModality "CT", Event.toggleTimer]))).totalRVU =
      (run initState [Event.selectModality "CT", Event.toggleTimer]).totalRVU ∧
    (undoLastStudy (completeStudy (run initState
        [Event.selectModality "CT", Event.toggleTimer]))).currentStreak =
      (run initState [Event.selectModality "CT", Event.toggleTimer]).currentStreak ∧
    (undoLastStudy (completeStudy (run initState
        [Event.selectModality "CT", Event.toggleTimer]))).studiesCompleted =
      (run initState [Event.selectModality "CT", Event.toggleTimer]).studiesCompleted := by
  have h := complete_undo_restores (run initState
    [Event.selectModality "CT", Event.toggleTimer]) (by decide) (Or.inr rfl)
  exact ⟨h.1, h.2.1, h.2.2.1, h.2.2.2.1⟩

/-- C4: after every event sequence the streak lies in [0, 6], and each
effective completion sets it to `min (streak + 1) 6` exactly when the
variance (elapsed minus target) is at most 0 and to exactly 0 otherwise. -/
theorem streak_bounds_and_update :
    (∀ evs : List Event, 0 ≤ (run initState evs).currentStreak ∧
      (run initState evs).currentStreak ≤ 6) ∧
    (∀ s : AppState, ¬ s.selectedModality = none →
      ¬ (s.currentTime = 0 ∧ s.isRunning = false) →
      (completeStudy s).currentStreak =
        if s.currentTime - calcPar s ≤ 0 then min (s.currentStreak + 1) 6 else 0) := by
  constructor
  · intro evs
    have h := streakInv_run initState evs streakInv_init
    exact ⟨h.1, h.2.1⟩
  · intro s h1 h2
    rw [completeStudy_eq s h1 h2]

theorem streak_bounds_and_update_witness :
    (0 ≤ (run initState []).currentStreak ∧ (run initState []).currentStreak ≤ 6) ∧
    (completeStudy (run initState
        [Event.selectModality "CT", Event.toggleTimer])).currentStreak =
      (if (run initState [Event.selectModality "CT", Event.toggleTimer]).currentTime -
          calcPar (run initState [Event.selectModality "CT", Event.toggleTimer]) ≤ 0 then
        min ((run initState
          [Event.selectModality "CT", Event.toggleTimer]).currentStreak + 1) 6
      else 0) := by
  exact ⟨streak_bounds_and_update.1 [],
    streak_bounds_and_update.2 _ (by decide) (by decide)⟩



theorem foldl_add_rvu (l : List CompletedRecord) (a : ℚ) :
    l.foldl (fun acc r => acc + r.rvu) a = a + (l.map (fun r => r.rvu)).sum := by
  induction l generalizing a with
  | nil => simp
  | cons x xs ih =>
      simp [ih]
      ring

/-- C5: at a completion the break prompt fires exactly when at least 120
minutes have passed since the last break and, once a decline is recorded, at
least 60 minutes have passed since the decline; declining records the
current since-last-break clock without stopping it; starting a break resets
both; after a decline at 7200 s the prompt condition holds exactly from
10800 s on. -/
theorem breakPolicy_correct :
    (∀ s : AppState, ¬ s.selectedModality = none →
      ¬ (s.currentTime = 0 ∧ s.isRunning = false) → s.showBreakPrompt = false →
      ((completeStudy s).showBreakPrompt = true ↔
        (120 ≤ (s.timeSinceLastBreak : ℚ) / 60 ∧
          60 ≤ (if 0 < s.lastBreakDeclineTime then
              ((s.timeSinceLastBreak : ℚ) - (s.lastBreakDeclineTime : ℚ)) / 60
            else (s.timeSinceLastBreak : ℚ) / 60)))) ∧
    (∀ s : AppState, (declineBreak s).lastBreakDeclineTime = s.timeSinceLastBreak ∧
      (declineBreak s).timeSinceLastBreak = s.timeSinceLastBreak) ∧
    (∀ s : AppState,
      (toggleBreakTime s).timeSinceLastBreak =
        (if s.isBreakTimeRunning then s.timeSinceLastBreak else 0) ∧
      (toggleBreakTime s).lastBreakDeclineTime =
        (if s.isBreakTimeRunning then s.lastBreakDeclineTime else 0)) ∧
    (∀ t : Int, breakPromptCond t 7200 = true ↔ 10800 ≤ t) := by
  refine ⟨?_, ?_, ?_, ?_⟩
  · intro s h1 h2 hp
    rw [completeStudy_eq s h1 h2]
    show (if breakPromptCond s.timeSinceLastBreak s.lastBreakDeclineTime = true then
      true else s.showBreakPrompt) = true ↔ _
    rw [hp]
    by_cases hc : breakPromptCond s.timeSinceLastBreak s.lastBreakDeclineTime = true
    · rw [if_pos hc]
      simp only [breakPromptCond, Bool.and_eq_true, decide_eq_true_eq, ge_iff_le] at hc
      simp only [true_iff]
      exact hc
    · rw [if_neg hc]
      simp only [breakPromptCond, Bool.and_eq_true, decide_eq_true_eq, ge_iff_le] at hc
      constructor
      · intro hfalse
        exact absurd hfalse (by simp)
      · intro hr
        exact absurd hr hc
  · intro s
    exact ⟨rfl, rfl⟩
  · intro s
    rw [toggleBreakTime]
    by_cases hb : s.isBreakTimeRunning = false
    · rw [if_pos hb]
      rw [hb]
      exact ⟨rfl, rfl⟩
    · rw [if_neg hb]
      have hb' : s.isBreakTimeRunning = true := by
        revert hb
        cases s.isBreakTimeRunning <;> simp
      rw [hb']
      exact ⟨rfl, rfl⟩
  · intro t
    simp only [breakPromptCond]
    rw [if_pos (show (0 : Int) < 7200 by norm_num)]
    rw [Bool.and_eq_true, decide_eq_true_eq, decide_eq_true_eq]
    rw [ge_iff_le, ge_iff_le]
    rw [le_div_iff₀ (show (0 : ℚ) < 60 by norm_num),
      le_div_iff₀ (show (0 : ℚ) < 60 by norm_num)]
    constructor
    · rintro ⟨h1', h2'⟩
      have ht : (10800 : ℚ) ≤ (t : ℚ) := by
        push_cast at h2'
        linarith
      exact_mod_cast ht
    · intro h
      have ht : (10800 : ℚ) ≤ (t : ℚ) := by exact_mod_cast h
      constructor
      · linarith
      · push_cast
        linarith

theorem breakPolicy_correct_witness :
    ((completeStudy (run initState
        [Event.selectModality "CT", Event.toggleTimer])).showBreakPrompt = true ↔
      (120 ≤ ((run initState
          [Event.selectModality "CT", Event.toggleTimer]).timeSinceLastBreak : ℚ) / 60 ∧
        60 ≤ (if 0 < (run initState
              [Event.selectModality "CT", Event.toggleTimer]).lastBreakDeclineTime then
            (((run initState
                [Event.selectModality "CT", Event.toggleTimer]).timeSinceLastBreak : ℚ) -
              ((run initState
                [Event.selectModality "CT", Event.toggleTimer]).lastBreakDeclineTime : ℚ)) / 60
          else ((run initState
              [Event.selectModality "CT", Event.toggleTimer]).timeSinceLastBreak : ℚ) / 60))) ∧
    (breakPromptCond 10800 7200 = true ↔ (10800 : Int) ≤ 10800) :=
  ⟨breakPolicy_correct.1 _ (by decide) (by decide) rfl,
   breakPolicy_correct.2.2.2 10800⟩



/-- Three user actions that select CT, start the timer, and complete the
study at once. -/
def completeOneCT : List Event :=
  [Event.selectModality "CT", Event.toggleTimer, Event.completeStudy]

/-- The rolling-value scenario of the spec: completions at wall-clock
offsets 0, 30 and 70 minutes. -/
def rollingScenario : List Event :=
  completeOneCT ++ List.replicate 1800 Event.tick ++ completeOneCT
    ++ List.replicate 2400 Event.tick ++ completeOneCT

section
attribute [local semireducible] Rat.add Rat.mul Rat.inv Rat.sub Rat.ofScientific

set_option maxRecDepth 10000 in
/-- C6: at each effective completion, the rolling RVU is recomputed as the
sum of the unit values of exactly the completed-study records whose
wall-clock timestamps fall within the trailing 60 real-time minutes; in the
0/30/70-minute scenario with unit value 1.0 each, the value at minute 70 is
2 (the minute-0 record falls outside the window). -/
theorem rollingRVU_window :
    (∀ s : AppState, ¬ s.selectedModality = none →
      ¬ (s.currentTime = 0 ∧ s.isRunning = false) →
      (completeStudy s).rollingRVU =
        (((s.completedStudies ++ [(⟨s.now, calcRVU s⟩ : CompletedRecord)]).filter
          (fun r => s.now - 60 * 60 * 1000 ≤ r.timestamp)).map
          (fun r => r.rvu)).sum) ∧
    (run initState rollingScenario).rollingRVU = 2 := by
  constructor
  · intro s h1 h2
    rw [completeStudy_eq s h1 h2]
    show (((s.completedStudies ++ [(⟨s.now, calcRVU s⟩ : CompletedRecord)]).filter
        (fun r : CompletedRecord => s.now - 60 * 60 * 1000 ≤ r.timestamp)).foldl
        (fun (acc : ℚ) r => acc + r.rvu) 0) = _
    rw [foldl_add_rvu]
    rw [zero_add]
  · have h : run initState rollingScenario =
        run (tickN 2400 (run (tickN 1800 (run initState completeOneCT))
          completeOneCT)) completeOneCT := by
      simp only [rollingScenario, run_append, run_replicate_tick]
    rw [h, tickN_eq, tickN_eq]
    decide

end

theorem rollingRVU_window_witness :
    (completeStudy (run initState
        [Event.selectModality "CT", Event.toggleTimer])).rollingRVU =
      ((((run initState [Event.selectModality "CT", Event.toggleTimer]).completedStudies ++
        [(⟨(run initState [Event.selectModality "CT", Event.toggleTimer]).now,
           calcRVU (run initState
             [Event.selectModality "CT", Event.toggleTimer])⟩ : CompletedRecord)]).filter
        (fun r => (run initState
          [Event.selectModality "CT", Event.toggleTimer]).now - 60 * 60 * 1000 ≤
            r.timestamp)).map (fun r => r.rvu)).sum :=
  rollingRVU_window.1 _ (by decide) (by decide)

/-- Unfolding of `toggleAdminTime` when admin starts while a study runs. -/
theorem toggleAdminTime_start_eq (s : AppState)
    (hadm : s.isAdminTimeRunning = false) (hm : s.selectedModality ≠ none)
    (hrun : s.isRunning = true) :
    toggleAdminTime s = { s with
      isAdminTimeRunning := true
      isInterstitialRunning := false
      isCommsTimeRunning := false
      adminEvents := s.adminEvents + 1
      isRunning := false
      isPaused := true
      studyWasAutoPaused := true } := by
  simp only [toggleAdminTime, if_pos hadm, if_pos (And.intro hm hrun)]

/-- Unfolding of `toggleAdminTime` when admin stops with an auto-paused
study. -/
theorem toggleAdminTime_stop_eq (s : AppState)
    (hadm : s.isAdminTimeRunning = true) (hap : s.studyWasAutoPaused = true) :
    toggleAdminTime s = { s with
      isAdminTimeRunning := false
      isInterstitialRunning := true
      isRunning := true
      isPaused := false
      studyWasAutoPaused := false } := by
  have hne : ¬ (s.isAdminTimeRunning = false) := by
    rw [hadm]
    simp
  simp only [toggleAdminTime, if_neg hne, if_pos hap]

/-- C8: starting admin while a study is actively running auto-pauses it, and
stopping admin after any number of ticks resumes the study with the paused
and auto-paused flags cleared and the selection, complications and elapsed
seconds exactly as they were when admin started. -/
theorem admin_interruption_resumes (s : AppState) (n : Nat)
    (hadm : s.isAdminTimeRunning = false) (hm : s.selectedModality ≠ none)
    (hrun : s.isRunning = true) :
    (toggleAdminTime s).isRunning = false ∧
    (toggleAdminTime s).isPaused = true ∧
    (toggleAdminTime s).studyWasAutoPaused = true ∧
    (toggleAdminTime (tickN n (toggleAdminTime s))).isRunning = true ∧
    (toggleAdminTime (tickN n (toggleAdminTime s))).isPaused = false ∧
    (toggleAdminTime (tickN n (toggleAdminTime s))).studyWasAutoPaused = false ∧
    (toggleAdminTime (tickN n (toggleAdminTime s))).selectedModality = s.selectedModality ∧
    (toggleAdminTime (tickN n (toggleAdminTime s))).selectedComplications =
      s.selectedComplications ∧
    (toggleAdminTime (tickN n (toggleAdminTime s))).currentTime = s.currentTime := by
  rw [toggleAdminTime_start_eq s hadm hm hrun]
  rw [tickN_eq]
  rw [toggleAdminTime_stop_eq _ (by simp) (by simp)]
  refine ⟨rfl, rfl, rfl, rfl, rfl, rfl, rfl, rfl, ?_⟩
  show (if False then s.currentTime + (n : Int) else s.currentTime) = s.currentTime
  simp

theorem admin_interruption_resumes_witness :
    (toggleAdminTime (run initState
      [Event.selectModality "CT", Event.toggleTimer])).isRunning = false ∧
    (toggleAdminTime (tickN 5 (toggleAdminTime (run initState
      [Event.selectModality "CT", Event.toggleTimer])))).isRunning = true ∧
    (toggleAdminTime (tickN 5 (toggleAdminTime (run initState
      [Event.selectModality "CT", Event.toggleTimer])))).currentTime =
      (run initState [Event.selectModality "CT", Event.toggleTimer]).currentTime := by
  have h := admin_interruption_resumes (run initState
    [Event.selectModality "CT", Event.toggleTimer]) 5 rfl (by decide) rfl
  exact ⟨h.1, h.2.2.2.1, h.2.2.2.2.2.2.2.2⟩

end RadTach
